import Mathlib

/-!
Verification development for the vegetation-health backend
(`src/backend/app`).  The definitions below are shallow embeddings of the
quota validator (`app/services/limits.py`), the usage tracker
(`app/services/usage_tracker.py`), the job model (`app/models/jobs.py`),
the tile cache (`app/services/cache.py`) and the global-scene-cache logic
of the download task (`app/tasks/download_tasks.py`).
Python `Decimal` values are modelled as `ℚ`; Redis is modelled as an
explicit store with atomic increment and absolute expiry timestamps.
-/

/-- The plan limits loaded by `LimitsValidator._load_limits`
(`app/services/limits.py`).  Hectare limits are `Decimal`s (modelled as
`ℚ`), job-count limits are integers. -/
structure Limits where
  monthly_ha_limit : ℚ
  daily_ha_limit : ℚ
  daily_jobs_limit : ℕ
  daily_download_jobs_limit : ℕ
  daily_process_jobs_limit : ℕ
  daily_calculate_jobs_limit : ℕ
deriving DecidableEq

/-- Job-type dispatch of `check_frequency_limit` (limits.py lines 192-199):
pick the per-category daily ceiling, defaulting to `daily_jobs_limit` for
unknown types. -/
def getFrequencyLimit (L : Limits) (job_type : String) : ℕ :=
  if job_type = "download" then L.daily_download_jobs_limit
  else if job_type = "process" then L.daily_process_jobs_limit
  else if job_type = "calculate_index" then L.daily_calculate_jobs_limit
  else L.daily_jobs_limit

/-- `LimitsValidator._get_rate_limit_key` (limits.py lines 98-111):
`rate_limit:{tenant_id}:{job_type}:{date}`. -/
def rateLimitKey (tenant_id job_type date_str : String) : String :=
  "rate_limit:" ++ tenant_id ++ ":" ++ job_type ++ ":" ++ date_str

/-- Seconds in one day; the code computes the TTL as the number of seconds
from `now` to the next local midnight. -/
def SECONDS_PER_DAY : ℕ := 86400

/-- `ttl = int((midnight - now).total_seconds())` (limits.py lines 203-205),
with `nowSec` the current time measured in seconds since today's local
midnight (so `nowSec < 86400`). -/
def ttlUntilMidnight (nowSec : ℕ) : ℕ := SECONDS_PER_DAY - nowSec

/-- The Redis counter database used for rate limiting.  `available`
models whether `_get_redis_client` returned a client (limits.py lines
47-60, 183-185).  `counts k = 0` models an absent key (Redis `INCR` on an
absent key yields 1).  `expiry` records the absolute expiration time in
seconds since today's local midnight (Redis stores the absolute deadline
for a relative `EXPIRE ttl`). -/
structure RedisState where
  available : Bool
  counts : String → ℕ
  expiry : String → Option ℕ

/-- Redis `INCR key`: atomically increment and return the new value. -/
def redisIncr (st : RedisState) (k : String) : ℕ × RedisState :=
  let c := st.counts k + 1
  (c, { st with counts := fun k2 => if k2 = k then c else st.counts k2 })

/-- Redis `EXPIRE key ttl` issued at time `nowSec`: the key's absolute
expiration becomes `nowSec + ttl`. -/
def redisExpire (st : RedisState) (k : String) (nowSec ttl : ℕ) : RedisState :=
  { st with expiry := fun k2 => if k2 = k then some (nowSec + ttl) else st.expiry k2 }

/-- Result triple of `check_frequency_limit`: `(is_allowed, error_message
elided, current_count)`. -/
structure FreqResult where
  allowed : Bool
  current_count : ℕ
deriving DecidableEq

/-- `LimitsValidator.check_frequency_limit` (limits.py lines 172-229).
If Redis is unavailable the check fails open with count 0 and no
increment; otherwise the counter for `rate_limit:{tenant}:{type}:{today}`
is incremented first, the expiry is set (to the next local midnight) only
when the post-increment value is 1, and the request is rejected exactly
when the post-increment value exceeds the ceiling.  A rejected request's
increment is not rolled back. -/
def check_frequency_limit (L : Limits) (tenant_id job_type today : String)
    (nowSec : ℕ) (st : RedisState) : FreqResult × RedisState :=
  if st.available = false then
    ({ allowed := true, current_count := 0 }, st)
  else
    let rate_key := rateLimitKey tenant_id job_type today
    let limit := getFrequencyLimit L job_type
    let ttl := ttlUntilMidnight nowSec
    let (current_count, st1) := redisIncr st rate_key
    let st2 := if current_count = 1 then redisExpire st1 rate_key nowSec ttl else st1
    if limit < current_count then
      ({ allowed := false, current_count := current_count }, st2)
    else
      ({ allowed := true, current_count := current_count }, st2)

/-- GeoJSON bounds as accepted by `UsageTracker.calculate_area_hectares`
(usage_tracker.py lines 27-88): a 4-element bbox list, a GeoJSON Polygon,
or anything else (the "Invalid bounds format" branch). -/
inductive Bounds
  | bbox (min_lon min_lat max_lon max_lat : ℚ)
  | polygon (coordinates : List (List (ℚ × ℚ)))
  | malformed (raw : String)
deriving DecidableEq

/-- `UsageTracker.calculate_area_hectares` (usage_tracker.py lines 27-88).
The projected square-metre area of a well-formed geometry is delegated to
`geomArea_m2` (pyproj/shapely, an external collaborator); the function
converts it to hectares.  A missing bounds value or a malformed bounds
value takes the warn-and-return branch and yields `0.0` hectares — no
exception escapes (the surrounding `except` also returns `0.0`). -/
def calculate_area_hectares (geomArea_m2 : Bounds → ℚ) :
    Option Bounds → ℚ
  | none => 0
  | some (Bounds.malformed _) => 0
  | some b => geomArea_m2 b / 10000

/-- `LimitsValidator.check_volume_limit` (limits.py lines 113-170),
restricted to its non-exception path.  `current_ha` is the tenant's
recorded area for the current calendar month
(`UsageTracker.get_current_month_usage`).  The request area is the
caller-supplied `ha_opt` if present, else computed from `bounds`.
Rejects when the month total would strictly exceed the monthly limit,
then when the single request's area alone strictly exceeds the daily
limit; otherwise allows.  Returns `(is_allowed, ha_to_process)` (the
error message is elided). -/
def check_volume_limit (L : Limits) (geomArea_m2 : Bounds → ℚ)
    (current_ha : ℚ) (bounds : Option Bounds) (ha_opt : Option ℚ) :
    Bool × ℚ :=
  let ha_to_process := ha_opt.getD (calculate_area_hectares geomArea_m2 bounds)
  if L.monthly_ha_limit < current_ha + ha_to_process then
    (false, ha_to_process)
  else if L.daily_ha_limit < ha_to_process then
    (false, ha_to_process)
  else
    (true, ha_to_process)

/-- `LimitsValidator.check_all_limits` (limits.py lines 231-266): the
frequency check runs first; if it rejects, the volume check is never
consulted and the Redis state produced by the frequency check (with its
increment) is kept.  If the frequency check allows, the volume check
decides; a volume rejection does not touch the frequency counter. -/
def check_all_limits (L : Limits) (geomArea_m2 : Bounds → ℚ)
    (tenant_id job_type today : String) (nowSec : ℕ) (current_ha : ℚ)
    (bounds : Option Bounds) (ha_opt : Option ℚ) (st : RedisState) :
    Bool × RedisState :=
  let (freqRes, st1) := check_frequency_limit L tenant_id job_type today nowSec st
  if freqRes.allowed = false then
    (false, st1)
  else
    let (volOk, _) := check_volume_limit L geomArea_m2 current_ha bounds ha_opt
    (volOk, st1)

/-- Outcome of the `POST /api/vegetation/jobs` handler, as far as the
claims are concerned: either a 429 rejection before any job record is
made, or a pending job record committed to the database. -/
inductive JobOutcome
  | rejected
  | created
deriving DecidableEq

/-- `create_job` (app/main.py lines 285-384), restricted to the admission
decision: limits are validated before creating the job; on rejection an
HTTP 429 is raised and no job row exists; otherwise a `VegetationJob`
with status `pending` is committed (follow-up usage recording and task
queuing elided).  There is no malformed-geometry rejection anywhere on
this path: no `GeometryError` type exists in the code. -/
def create_job (L : Limits) (geomArea_m2 : Bounds → ℚ)
    (tenant_id job_type today : String) (nowSec : ℕ) (current_ha : ℚ)
    (bounds : Option Bounds) (ha_opt : Option ℚ) (st : RedisState) :
    JobOutcome × RedisState :=
  let (allowed, st1) :=
    check_all_limits L geomArea_m2 tenant_id job_type today nowSec current_ha bounds ha_opt st
  if allowed then (JobOutcome.created, st1) else (JobOutcome.rejected, st1)

/-- Run a sequence of admission attempts against the frequency check for
one `(tenant, job_type, today)` triple; `times` gives each attempt's
clock reading (seconds since local midnight).  Returns the results in
order together with the final Redis state. -/
def runFreqAttempts (L : Limits) (tenant_id job_type today : String) :
    List ℕ → RedisState → List FreqResult × RedisState
  | [], st => ([], st)
  | t :: ts, st =>
    let (r, st1) := check_frequency_limit L tenant_id job_type today t st
    let (rs, st2) := runFreqAttempts L tenant_id job_type today ts st1
    (r :: rs, st2)

/-- Number of allowed results in a list of frequency-check results. -/
def allowedCount (rs : List FreqResult) : ℕ := rs.countP (fun r => r.allowed)

/-- Job status values allowed by the `vegetation_jobs_status_check`
constraint (app/models/jobs.py lines 67-70). -/
inductive JobStatus
  | pending
  | running
  | completed
  | failed
  | cancelled
deriving DecidableEq

/-- The mutable fields of `VegetationJob` (app/models/jobs.py) touched by
the transition methods.  `result` is an opaque JSONB map, modelled as an
association list; timestamps are abstract instants. -/
structure VegetationJob where
  status : JobStatus := JobStatus.pending
  progress_percentage : ℤ := 0
  started_at : Option ℕ := none
  completed_at : Option ℕ := none
  result : Option (List (String × String)) := none
  error_message : Option String := none
  error_traceback : Option String := none
deriving DecidableEq

/-- `VegetationJob.mark_started` (jobs.py lines 87-90): unconditionally
sets `status = 'running'` and `started_at = now`; there is no check of
the current status. -/
def mark_started (now : ℕ) (j : VegetationJob) : VegetationJob :=
  { j with status := JobStatus.running, started_at := some now }

/-- `VegetationJob.mark_completed` (jobs.py lines 92-98): unconditionally
sets `status = 'completed'`, `completed_at = now`, progress 100, and the
result when one is given; there is no check of the current status. -/
def mark_completed (now : ℕ) (result : Option (List (String × String)))
    (j : VegetationJob) : VegetationJob :=
  let j1 := { j with status := JobStatus.completed, completed_at := some now,
                     progress_percentage := 100 }
  match result with
  | some r => { j1 with result := some r }
  | none => j1

/-- `VegetationJob.mark_failed` (jobs.py lines 100-106): unconditionally
sets `status = 'failed'`, `completed_at = now` and the error message (and
traceback when given); there is no check of the current status. -/
def mark_failed (now : ℕ) (error_message : String)
    (error_traceback : Option String) (j : VegetationJob) : VegetationJob :=
  let j1 := { j with status := JobStatus.failed, completed_at := some now,
                     error_message := some error_message }
  match error_traceback with
  | some t => { j1 with error_traceback := some t }
  | none => j1

/-- Character-list version of "p is an initial segment of s", used to
model Redis `KEYS` glob patterns of the literal-then-star shape. -/
def listStartsWith : List Char → List Char → Bool
  | [], _ => true
  | _ :: _, [] => false
  | a :: as, b :: bs => a == b && listStartsWith as bs

/-- String version of `listStartsWith`. -/
def strStartsWith (p s : String) : Bool := listStartsWith p.data s.data

/-- `TileCache._get_cache_key` (app/services/cache.py lines 45-58):
`vegetation:tile:{scene_id}:{index_type}:{z}:{x}:{y}`. -/
def tileCacheKey (z x y : ℤ) (scene_id index_type : String) : String :=
  "vegetation:tile:" ++ scene_id ++ ":" ++ index_type ++ ":" ++
    toString z ++ ":" ++ toString x ++ ":" ++ toString y

/-- One Redis entry of the tile cache: key, PNG payload (opaque bytes
modelled as a string) and the TTL passed to `SETEX`. -/
structure TileEntry where
  key : String
  data : String
  ttl : ℕ
deriving DecidableEq

/-- The tile-cache keyspace: one entry per key. -/
structure TileStore where
  entries : List TileEntry
deriving DecidableEq

/-- `TileCache.get_tile` (cache.py lines 60-89): look the key up, return
the payload on a hit and `none` on a miss. -/
def get_tile (st : TileStore) (z x y : ℤ) (scene_id index_type : String) :
    Option String :=
  (st.entries.find? (fun e => e.key == tileCacheKey z x y scene_id index_type)).map
    (fun e => e.data)

/-- `TileCache.set_tile` (cache.py lines 91-126): `SETEX key ttl data`, a
single atomic put that replaces any previous entry under the key. -/
def set_tile (st : TileStore) (z x y : ℤ) (scene_id index_type : String)
    (tile_data : String) (ttl : ℕ) : TileStore :=
  let k := tileCacheKey z x y scene_id index_type
  { entries := { key := k, data := tile_data, ttl := ttl } ::
      st.entries.filter (fun e => !(e.key == k)) }

/-- Does a key match the `KEYS` pattern `vegetation:tile:{scene_id}:*`
(cache.py line 141)?  For a `scene_id` free of glob metacharacters the
Redis glob `lit*` matches exactly the keys that start with `lit`. -/
def matchesScenePattern (scene_id key : String) : Bool :=
  strStartsWith ("vegetation:tile:" ++ scene_id ++ ":") key

/-- `TileCache.invalidate_scene` (cache.py lines 128-153): list every key
matching `vegetation:tile:{scene_id}:*`, delete them, return the number
deleted. -/
def invalidate_scene (st : TileStore) (scene_id : String) : ℕ × TileStore :=
  let victims := st.entries.filter (fun e => matchesScenePattern scene_id e.key)
  (victims.length,
   { entries := st.entries.filter (fun e => !(matchesScenePattern scene_id e.key)) })

/-- A row of the `global_scene_cache` table
(app/models/global_scene_cache.py), restricted to the fields the download
task reads or writes.  `bands` is the JSONB band-name-to-path map,
modelled as an association list; provider metadata columns
(cloud/snow coverage, sensing date, footprint) are elided. -/
structure GlobalSceneCache where
  scene_id : String
  bands : List (String × String)
  storage_path : String
  storage_bucket : String
  download_count : ℕ
  last_accessed_at : Option ℕ
  is_valid : Bool
deriving DecidableEq

/-- `GlobalSceneCache.get_band_path` (global_scene_cache.py lines 62-66):
look the band up in the JSONB map. -/
def get_band_path (e : GlobalSceneCache) (band : String) : Option String :=
  (e.bands.find? (fun p => p.1 == band)).map (fun p => p.2)

/-- `GlobalSceneCache.increment_download_count` (global_scene_cache.py
lines 74-77): bump the reuse counter by one and stamp the access time. -/
def increment_download_count (now : ℕ) (e : GlobalSceneCache) : GlobalSceneCache :=
  { e with download_count := e.download_count + 1, last_accessed_at := some now }

/-- The shared state the download task manipulates: the
`global_scene_cache` table and the blob store, the latter as the list of
`(bucket, path)` pairs that currently exist. -/
structure AcqState where
  cacheDb : List GlobalSceneCache
  blobs : List (String × String)
deriving DecidableEq

/-- `StorageService.file_exists` over the modelled blob store. -/
def blobExists (blobs : List (String × String)) (bucket path : String) : Bool :=
  blobs.any (fun p => p.1 == bucket && p.2 == path)

/-- The inputs of one run of the cache logic of
`download_sentinel2_scene`: the chosen scene, the band list
(`required_bands`, download_tasks.py line 177), the two bucket names, the
tenant's `config.storage_path` and the current instant. -/
structure AcqConfig where
  scene_id : String
  required_bands : List String
  global_bucket : String
  tenant_bucket : String
  storage_path : String
  now : ℕ
deriving DecidableEq

/-- Global-bucket path of a band: `scenes/{scene_id}/{band}.tif`
(download_tasks.py lines 272, 313). -/
def globalBandPath (scene_id band : String) : String :=
  "scenes/" ++ scene_id ++ "/" ++ band ++ ".tif"

/-- Tenant-bucket path of a band:
`{config.storage_path}scenes/{scene_id}/{band}.tif` (download_tasks.py
lines 224, 314). -/
def tenantBandPath (storage_path scene_id band : String) : String :=
  storage_path ++ "scenes/" ++ scene_id ++ "/" ++ band ++ ".tif"

/-- Observable side effects of one run of the cache logic, in program
order: upstream band downloads from Copernicus, uploads into the global
bucket, bucket-to-bucket copies into the tenant bucket (tagged with
their source path in the global bucket), the `is_valid = False` flip and
the reuse-counter increment. -/
inductive AcqEvent
  | upstreamDownload (scene_id band : String)
  | globalUpload (band path : String)
  | tenantCopy (band source_path : String)
  | markedInvalid (scene_id : String)
  | reuseIncrement (scene_id : String)
deriving DecidableEq

/-- Result of one run: the tenant-bucket band map
(`storage_band_paths`) and the event trace. -/
structure AcqResult where
  storage_band_paths : List (String × String)
  events : List AcqEvent
deriving DecidableEq

/-- The cache lookup of download_tasks.py lines 197-200: first row with
this `scene_id` and `is_valid == True`. -/
def lookupValidEntry (db : List GlobalSceneCache) (sid : String) :
    Option GlobalSceneCache :=
  db.find? (fun e => e.scene_id == sid && e.is_valid)

/-- The unfiltered lookup of download_tasks.py lines 278-280: first row
with this `scene_id`, valid or not. -/
def lookupAnyEntry (db : List GlobalSceneCache) (sid : String) :
    Option GlobalSceneCache :=
  db.find? (fun e => e.scene_id == sid)

/-- The per-band verification of download_tasks.py lines 211-217: every
required band must have a non-empty path in the entry's band map and the
referenced blob must exist in the global bucket (`not global_band_path or
not global_storage.file_exists(...)` marks the band missing). -/
def verifyBands (e : GlobalSceneCache) (blobs : List (String × String))
    (global_bucket : String) (required_bands : List String) : Bool :=
  required_bands.all (fun b =>
    match get_band_path e b with
    | some p => !(p == "") && blobExists blobs global_bucket p
    | none => false)

/-- Write an updated row back for every row with this `scene_id` (the ORM
mutates the row in place; `scene_id` is unique in the table). -/
def updateEntry (db : List GlobalSceneCache) (sid : String)
    (f : GlobalSceneCache → GlobalSceneCache) : List GlobalSceneCache :=
  db.map (fun e => if e.scene_id == sid then f e else e)

/-- The miss path of `download_sentinel2_scene` (download_tasks.py lines
248-328): download every required band from Copernicus into a scratch
area, upload each to the global bucket, create the cache entry (or
re-validate an existing row, keeping its `download_count`), then copy
each band from the global bucket to the tenant bucket.  Returns `none`
when no band was downloaded (`if not band_paths: raise`), which in the
model happens exactly for an empty band list. -/
def missPath (cfg : AcqConfig) (st : AcqState) : Option (AcqResult × AcqState) :=
  if cfg.required_bands.isEmpty then none
  else
    let global_band_pairs := cfg.required_bands.map
      (fun b => (b, globalBandPath cfg.scene_id b))
    let blobs1 := cfg.required_bands.map
      (fun b => (cfg.global_bucket, globalBandPath cfg.scene_id b)) ++ st.blobs
    let db1 :=
      if st.cacheDb.any (fun e => e.scene_id == cfg.scene_id) then
        updateEntry st.cacheDb cfg.scene_id (fun e =>
          { e with is_valid := true, bands := global_band_pairs,
                   storage_path := "scenes/" ++ cfg.scene_id ++ "/",
                   storage_bucket := cfg.global_bucket })
      else
        st.cacheDb ++ [{ scene_id := cfg.scene_id, bands := global_band_pairs,
                         storage_path := "scenes/" ++ cfg.scene_id ++ "/",
                         storage_bucket := cfg.global_bucket,
                         download_count := 0, last_accessed_at := none,
                         is_valid := true }]
    let blobs2 := cfg.required_bands.map
      (fun b => (cfg.tenant_bucket, tenantBandPath cfg.storage_path cfg.scene_id b)) ++ blobs1
    some
      ({ storage_band_paths := cfg.required_bands.map
           (fun b => (b, tenantBandPath cfg.storage_path cfg.scene_id b)),
         events :=
           cfg.required_bands.map (fun b => AcqEvent.upstreamDownload cfg.scene_id b) ++
           cfg.required_bands.map (fun b => AcqEvent.globalUpload b (globalBandPath cfg.scene_id b)) ++
           cfg.required_bands.map (fun b => AcqEvent.tenantCopy b (globalBandPath cfg.scene_id b)) },
       { cacheDb := db1, blobs := blobs2 })

/-- The global-cache logic of `download_sentinel2_scene`
(download_tasks.py lines 195-328).  Scene search, credential handling,
SCL validation and the `VegetationScene` record are elided: the function
starts from the chosen `scene_id`.  Hit path: verify every band, copy
each from the entry's global paths to the tenant bucket, bump the reuse
counter.  Corrupted hit: flip `is_valid = False` and fall through to the
miss path.  Miss: see `missPath`. -/
def download_sentinel2_scene (cfg : AcqConfig) (st : AcqState) :
    Option (AcqResult × AcqState) :=
  match lookupValidEntry st.cacheDb cfg.scene_id with
  | some entry =>
    if verifyBands entry st.blobs cfg.global_bucket cfg.required_bands then
      let blobs1 := cfg.required_bands.map
        (fun b => (cfg.tenant_bucket, tenantBandPath cfg.storage_path cfg.scene_id b)) ++ st.blobs
      let db1 := updateEntry st.cacheDb cfg.scene_id (increment_download_count cfg.now)
      some
        ({ storage_band_paths := cfg.required_bands.map
             (fun b => (b, tenantBandPath cfg.storage_path cfg.scene_id b)),
           events :=
             cfg.required_bands.map
               (fun b => AcqEvent.tenantCopy b ((get_band_path entry b).getD "")) ++
             [AcqEvent.reuseIncrement cfg.scene_id] },
         { cacheDb := db1, blobs := blobs1 })
    else
      let db1 := updateEntry st.cacheDb cfg.scene_id (fun e => { e with is_valid := false })
      (missPath cfg { st with cacheDb := db1 }).map
        (fun r => ({ r.1 with events := AcqEvent.markedInvalid cfg.scene_id :: r.1.events }, r.2))
  | none => missPath cfg st

/-- Does an event record an upstream (Copernicus) band download? -/
def isUpstreamDownload : AcqEvent → Bool
  | AcqEvent.upstreamDownload _ _ => true
  | _ => false

/-- Number of upstream band downloads in a trace. -/
def countUpstream (evs : List AcqEvent) : ℕ := evs.countP isUpstreamDownload

/-- Example plan limits mirroring the defaults of limits.py lines 23-29,
with `daily_calculate_jobs_limit = 5` as in the spec's quota scenario. -/
def exLimits : Limits :=
  { monthly_ha_limit := 10, daily_ha_limit := 5, daily_jobs_limit := 5,
    daily_download_jobs_limit := 3, daily_process_jobs_limit := 10,
    daily_calculate_jobs_limit := 5 }

/-- Example plan limits with a calculate-job ceiling of 1. -/
def exLimitsTight : Limits :=
  { monthly_ha_limit := 10, daily_ha_limit := 5, daily_jobs_limit := 5,
    daily_download_jobs_limit := 3, daily_process_jobs_limit := 10,
    daily_calculate_jobs_limit := 1 }

/-- A reachable Redis instance with an empty keyspace. -/
def emptyRedis : RedisState :=
  { available := true, counts := fun _ => 0, expiry := fun _ => none }

/-- A reachable Redis instance where tenant `tenantA` has already spent
five `calculate_index` admissions today. -/
def redisAt5 : RedisState :=
  { available := true,
    counts := fun k =>
      if k = rateLimitKey "tenantA" "calculate_index" "2026-10-12" then 5 else 0,
    expiry := fun _ => some SECONDS_PER_DAY }

/-- A degenerate area oracle for examples (the malformed-bounds branch
never consults it). -/
def gZero : Bounds → ℚ := fun _ => 0

/-- Tile store holding one tile of scene `SCN` and one tile of the
distinct scene `SCN:EXT`, both under index `NDVI` at z/x/y = 1/2/3. -/
def tileStoreEx : TileStore :=
  set_tile (set_tile { entries := [] } 1 2 3 "SCN" "NDVI" "png-a" 86400)
    1 2 3 "SCN:EXT" "NDVI" "png-b" 86400

/-- Example acquisition request: scene `S`, one band, tenant A. -/
def exCfg : AcqConfig :=
  { scene_id := "S", required_bands := ["B02"], global_bucket := "veg-global",
    tenant_bucket := "veg-tenant-a", storage_path := "veg/", now := 7 }

/-- A nominally valid cache entry for scene `S` whose single band path
points at a blob that does not exist. -/
def entryBad : GlobalSceneCache :=
  { scene_id := "S", bands := [("B02", "scenes/S/B02.tif")],
    storage_path := "scenes/S/", storage_bucket := "veg-global",
    download_count := 4, last_accessed_at := none, is_valid := true }

/-- State with the corrupt entry of `entryBad` and an empty blob store
(the referenced band blob is missing). -/
def stBad : AcqState := { cacheDb := [entryBad], blobs := [] }

/-- Completely empty shared state: no cache rows, no blobs. -/
def stEmpty : AcqState := { cacheDb := [], blobs := [] }

/-- The cache entry the miss path creates (download_tasks.py lines
292-304): fresh band map, global bucket, `download_count = 0`,
`is_valid = True`. -/
def freshSceneEntry (sid gb : String) (bands : List String) : GlobalSceneCache :=
  { scene_id := sid, bands := bands.map (fun b => (b, globalBandPath sid b)),
    storage_path := "scenes/" ++ sid ++ "/", storage_bucket := gb,
    download_count := 0, last_accessed_at := none, is_valid := true }

/-- The blob store contents after the miss path ran against `blobs`:
tenant copies, then global uploads, then the prior contents. -/
def missBlobs (sid gb tb sp : String) (bands : List String)
    (blobs : List (String × String)) : List (String × String) :=
  bands.map (fun b => (tb, tenantBandPath sp sid b)) ++
    (bands.map (fun b => (gb, globalBandPath sid b)) ++ blobs)

theorem freq_unavailable (L : Limits) (tenant_id job_type today : String)
    (nowSec : ℕ) (st : RedisState) (h : st.available = false) :
    check_frequency_limit L tenant_id job_type today nowSec st
      = ({ allowed := true, current_count := 0 }, st) := by
  simp [check_frequency_limit, h]

theorem freq_step_result (L : Limits) (tenant_id job_type today : String)
    (nowSec : ℕ) (st : RedisState) (h : st.available = true) :
    (check_frequency_limit L tenant_id job_type today nowSec st).1 =
      { allowed := !decide (getFrequencyLimit L job_type <
          st.counts (rateLimitKey tenant_id job_type today) + 1),
        current_count := st.counts (rateLimitKey tenant_id job_type today) + 1 } := by
  simp only [check_frequency_limit, redisIncr, redisExpire, h]
  split_ifs with h1 h2 h3 <;> simp_all

theorem freq_step_counts (L : Limits) (tenant_id job_type today : String)
    (nowSec : ℕ) (st : RedisState) (h : st.available = true) (k2 : String) :
    (check_frequency_limit L tenant_id job_type today nowSec st).2.counts k2 =
      if k2 = rateLimitKey tenant_id job_type today then
        st.counts (rateLimitKey tenant_id job_type today) + 1
      else st.counts k2 := by
  simp only [check_frequency_limit, redisIncr, redisExpire, h]
  split_ifs with h1 h2 h3 <;> simp_all

theorem freq_step_available (L : Limits) (tenant_id job_type today : String)
    (nowSec : ℕ) (st : RedisState) :
    (check_frequency_limit L tenant_id job_type today nowSec st).2.available
      = st.available := by
  simp only [check_frequency_limit, redisIncr, redisExpire]
  split_ifs with h1 h2 h3 <;> simp_all

theorem freq_step_expiry (L : Limits) (tenant_id job_type today : String)
    (nowSec : ℕ) (st : RedisState) (h : st.available = true) (k2 : String) :
    (check_frequency_limit L tenant_id job_type today nowSec st).2.expiry k2 =
      if st.counts (rateLimitKey tenant_id job_type today) = 0
          ∧ k2 = rateLimitKey tenant_id job_type today then
        some (nowSec + ttlUntilMidnight nowSec)
      else st.expiry k2 := by
  simp only [check_frequency_limit, redisIncr, redisExpire, h]
  split_ifs with h1 h2 h3 <;> simp_all

/-- C2: the frequency check increments the `(tenant, category, today)`
counter first and compares the post-increment value against the
category's ceiling: the result reports the post-increment value, the
stored counter equals that value even when the request is rejected (no
refund), and rejection happens exactly when the post-increment value
strictly exceeds the ceiling. -/
theorem freq_check_increment_then_compare (L : Limits)
    (tenant_id job_type today : String) (nowSec : ℕ) (st : RedisState)
    (h : st.available = true) :
    (check_frequency_limit L tenant_id job_type today nowSec st).1.current_count
        = st.counts (rateLimitKey tenant_id job_type today) + 1 ∧
    (check_frequency_limit L tenant_id job_type today nowSec st).2.counts
        (rateLimitKey tenant_id job_type today)
        = st.counts (rateLimitKey tenant_id job_type today) + 1 ∧
    ((check_frequency_limit L tenant_id job_type today nowSec st).1.allowed = false ↔
      getFrequencyLimit L job_type
        < st.counts (rateLimitKey tenant_id job_type today) + 1) := by
  refine ⟨?_, ?_, ?_⟩
  · rw [freq_step_result L tenant_id job_type today nowSec st h]
  · rw [freq_step_counts L tenant_id job_type today nowSec st h]
    simp
  · rw [freq_step_result L tenant_id job_type today nowSec st h]
    simp

/-- C2 witness: with a `calculate_index` ceiling of 5 and five prior
admissions recorded, the sixth call of the day reads counter value 6, is
rejected, and the stored counter keeps the value 6. -/
theorem freq_check_increment_then_compare_witness :
    (check_frequency_limit exLimits "tenantA" "calculate_index" "2026-10-12"
        3600 redisAt5).1.current_count = 6 ∧
    (check_frequency_limit exLimits "tenantA" "calculate_index" "2026-10-12"
        3600 redisAt5).2.counts
        (rateLimitKey "tenantA" "calculate_index" "2026-10-12") = 6 ∧
    (check_frequency_limit exLimits "tenantA" "calculate_index" "2026-10-12"
        3600 redisAt5).1.allowed = false := by
  obtain ⟨h1, h2, h3⟩ := freq_check_increment_then_compare exLimits "tenantA"
    "calculate_index" "2026-10-12" 3600 redisAt5 rfl
  have hc : redisAt5.counts (rateLimitKey "tenantA" "calculate_index" "2026-10-12") = 5 := by
    simp [redisAt5]
  rw [hc] at h1 h2 h3
  exact ⟨h1, h2, h3.mpr (by decide)⟩

/-- C5: the volume check rejects exactly when the month's recorded
hectares plus the requested hectares strictly exceed the monthly limit,
or the single request's hectares alone strictly exceed the daily limit;
no rolling daily total enters the decision (only the monthly usage
`current_ha` is consulted), and a request passing both comparisons is
allowed. -/
theorem volume_check_reject_iff (L : Limits) (gA : Bounds → ℚ)
    (current_ha : ℚ) (bounds : Option Bounds) (ha_opt : Option ℚ) :
    ((check_volume_limit L gA current_ha bounds ha_opt).1 = false ↔
      (L.monthly_ha_limit
          < current_ha + ha_opt.getD (calculate_area_hectares gA bounds) ∨
       L.daily_ha_limit < ha_opt.getD (calculate_area_hectares gA bounds))) ∧
    (check_volume_limit L gA current_ha bounds ha_opt).2
      = ha_opt.getD (calculate_area_hectares gA bounds) := by
  simp only [check_volume_limit]
  split_ifs with h1 h2 <;> simp_all

/-- C10: in the combined admission check the frequency check runs first;
when it allows a request that the volume check then rejects, the combined
check rejects, yet the frequency counter has already been incremented by
one and is not rolled back. -/
theorem volume_reject_consumes_frequency (L : Limits) (gA : Bounds → ℚ)
    (tenant_id job_type today : String) (nowSec : ℕ) (current_ha : ℚ)
    (bounds : Option Bounds) (ha_opt : Option ℚ) (st : RedisState)
    (h : st.available = true)
    (hf : (check_frequency_limit L tenant_id job_type today nowSec st).1.allowed = true)
    (hv : (check_volume_limit L gA current_ha bounds ha_opt).1 = false) :
    (check_all_limits L gA tenant_id job_type today nowSec current_ha bounds
        ha_opt st).1 = false ∧
    (check_all_limits L gA tenant_id job_type today nowSec current_ha bounds
        ha_opt st).2.counts (rateLimitKey tenant_id job_type today)
      = st.counts (rateLimitKey tenant_id job_type today) + 1 := by
  have hc := freq_step_counts L tenant_id job_type today nowSec st h
    (rateLimitKey tenant_id job_type today)
  rcases hEq : check_frequency_limit L tenant_id job_type today nowSec st with ⟨fr, st1⟩
  rw [hEq] at hf hc
  simp only [check_all_limits, hEq, hf]
  simp_all

/-- C10 witness: tenant with an empty counter requests 100 ha against a
10 ha monthly cap — the frequency check passes (counter becomes 1), the
volume check rejects, and the counter stays at 1. -/
theorem volume_reject_consumes_frequency_witness :
    (check_all_limits exLimits gZero "tenantA" "calculate_index" "2026-10-12"
        3600 0 none (some 100) emptyRedis).1 = false ∧
    (check_all_limits exLimits gZero "tenantA" "calculate_index" "2026-10-12"
        3600 0 none (some 100) emptyRedis).2.counts
        (rateLimitKey "tenantA" "calculate_index" "2026-10-12") = 1 := by
  have h := volume_reject_consumes_frequency exLimits gZero "tenantA"
    "calculate_index" "2026-10-12" 3600 0 none (some 100) emptyRedis rfl
    (by decide) (by norm_num [check_volume_limit, exLimits])
  simpa [emptyRedis] using h

/-- C7: the expiry of a `(tenant, category, date)` counter key is set (to
the next local midnight) only by the increment that creates the key, i.e.
the one whose post-increment value is 1; an increment of an
already-existing key leaves every expiry untouched. -/
theorem freq_ttl_set_only_on_first_increment (L : Limits)
    (tenant_id job_type today : String) (nowSec : ℕ) (st : RedisState)
    (h : st.available = true) (hnow : nowSec ≤ SECONDS_PER_DAY) :
    (st.counts (rateLimitKey tenant_id job_type today) = 0 →
      (check_frequency_limit L tenant_id job_type today nowSec st).2.expiry
        (rateLimitKey tenant_id job_type today) = some SECONDS_PER_DAY) ∧
    (st.counts (rateLimitKey tenant_id job_type today) ≠ 0 →
      ∀ k, (check_frequency_limit L tenant_id job_type today nowSec st).2.expiry k
        = st.expiry k) := by
  constructor
  · intro h0
    rw [freq_step_expiry L tenant_id job_type today nowSec st h]
    rw [if_pos ⟨h0, rfl⟩]
    congr 1
    simp only [ttlUntilMidnight, SECONDS_PER_DAY] at hnow ⊢
    omega
  · intro h0 k
    rw [freq_step_expiry L tenant_id job_type today nowSec st h]
    simp [h0]

/-- C7 witness: the first increment of the day (empty keyspace, 01:00
local time) stamps the key with an expiry at the next local midnight. -/
theorem freq_ttl_set_only_on_first_increment_witness :
    (check_frequency_limit exLimits "tenantA" "calculate_index" "2026-10-12"
        3600 emptyRedis).2.expiry
      (rateLimitKey "tenantA" "calculate_index" "2026-10-12")
      = some SECONDS_PER_DAY := by
  exact (freq_ttl_set_only_on_first_increment exLimits "tenantA"
    "calculate_index" "2026-10-12" 3600 emptyRedis rfl (by decide)).1 rfl

theorem runFreq_invariant (L : Limits) (tenant_id job_type today : String)
    (times : List ℕ) :
    ∀ st : RedisState, st.available = true →
      (runFreqAttempts L tenant_id job_type today times st).2.available = true ∧
      (runFreqAttempts L tenant_id job_type today times st).2.counts
          (rateLimitKey tenant_id job_type today)
        = st.counts (rateLimitKey tenant_id job_type today) + times.length ∧
      allowedCount (runFreqAttempts L tenant_id job_type today times st).1
        = min times.length (getFrequencyLimit L job_type
            - st.counts (rateLimitKey tenant_id job_type today)) := by
  induction times with
  | nil =>
    intro st h
    simp [runFreqAttempts, allowedCount, h]
  | cons t ts ih =>
    intro st h
    rcases hEq : check_frequency_limit L tenant_id job_type today t st with ⟨r, st1⟩
    have havail : st1.available = true := by
      have ha := freq_step_available L tenant_id job_type today t st
      rw [hEq] at ha
      simpa [h] using ha
    have hcounts : st1.counts (rateLimitKey tenant_id job_type today)
        = st.counts (rateLimitKey tenant_id job_type today) + 1 := by
      have hc := freq_step_counts L tenant_id job_type today t st h
        (rateLimitKey tenant_id job_type today)
      rw [hEq] at hc
      simpa using hc
    have hres : r.allowed = !decide (getFrequencyLimit L job_type <
        st.counts (rateLimitKey tenant_id job_type today) + 1) := by
      have hr := freq_step_result L tenant_id job_type today t st h
      rw [hEq] at hr
      exact congrArg FreqResult.allowed hr
    obtain ⟨ih1, ih2, ih3⟩ := ih st1 havail
    refine ⟨?_, ?_, ?_⟩
    · simpa [runFreqAttempts, hEq] using ih1
    · simp only [runFreqAttempts, hEq]
      rw [ih2, hcounts, List.length_cons]
      omega
    · simp only [runFreqAttempts, hEq, allowedCount, List.countP_cons]
      rw [← allowedCount, ih3, hcounts, hres, List.length_cons]
      by_cases hlt : getFrequencyLimit L job_type <
          st.counts (rateLimitKey tenant_id job_type today) + 1
      · simp [decide_eq_true hlt]
        omega
      · simp [decide_eq_false hlt]
        omega

/-- C6 counterexample: with a daily ceiling of 1, three admission
attempts in one day leave the `(tenant, category, date)` counter at 3,
which exceeds `limit + 1 = 2` — the claimed bound fails because every
attempt increments the counter, including attempts made after the limit
is already exhausted. -/
theorem freq_counter_limit_plus_one_counterexample :
    (runFreqAttempts exLimitsTight "tenantA" "calculate_index" "2026-10-12"
        [100, 200, 300] emptyRedis).2.counts
      (rateLimitKey "tenantA" "calculate_index" "2026-10-12") = 3 ∧
    getFrequencyLimit exLimitsTight "calculate_index" + 1 < 3 := by
  decide

/-- C6 corrected: the frequency counter records every admission attempt
of the day — after `n` attempts it reads exactly `n`, so it exceeds
`limit + 1` whenever more than `limit + 1` attempts are made; what does
hold is that the number of admitted attempts never exceeds the limit. -/
theorem freq_counter_counts_attempts (L : Limits)
    (tenant_id job_type today : String) (times : List ℕ) (st : RedisState)
    (h : st.available = true)
    (h0 : st.counts (rateLimitKey tenant_id job_type today) = 0) :
    (runFreqAttempts L tenant_id job_type today times st).2.counts
        (rateLimitKey tenant_id job_type today) = times.length ∧
    allowedCount (runFreqAttempts L tenant_id job_type today times st).1
      ≤ getFrequencyLimit L job_type := by
  obtain ⟨-, h2, h3⟩ := runFreq_invariant L tenant_id job_type today times st h
  rw [h0] at h2 h3
  refine ⟨by simpa using h2, ?_⟩
  rw [h3]
  omega

/-- C6 witness: three attempts against a ceiling of 1 from an empty
keyspace drive the counter to 3 while only 1 attempt is admitted. -/
theorem freq_counter_counts_attempts_witness :
    (runFreqAttempts exLimitsTight "tenantA" "calculate_index" "2026-10-12"
        [100, 200, 300] emptyRedis).2.counts
      (rateLimitKey "tenantA" "calculate_index" "2026-10-12") = 3 ∧
    allowedCount (runFreqAttempts exLimitsTight "tenantA" "calculate_index"
        "2026-10-12" [100, 200, 300] emptyRedis).1
      ≤ getFrequencyLimit exLimitsTight "calculate_index" := by
  have h := freq_counter_counts_attempts exLimitsTight "tenantA"
    "calculate_index" "2026-10-12" [100, 200, 300] emptyRedis rfl rfl
  simpa using h

/-- C3 counterexample: the transition methods enforce no state machine —
calling `mark_failed` on a job already in the terminal state `completed`
is not rejected (no `InvalidTransition` error exists in the code); it
silently overwrites the terminal status with `failed`. -/
theorem job_transitions_counterexample :
    (mark_completed 1 none (mark_started 0 ({} : VegetationJob))).status
      = JobStatus.completed ∧
    (mark_failed 2 "boom" none
        (mark_completed 1 none (mark_started 0 ({} : VegetationJob)))).status
      = JobStatus.failed := by
  exact ⟨rfl, rfl⟩

/-- C3 corrected: `mark_started`, `mark_completed` and `mark_failed`
perform no precondition check and raise no `InvalidTransition` error (no
such error exists anywhere in the code): from any current status —
pending, running or a terminal one — they unconditionally overwrite the
status with `running`, `completed` and `failed` respectively, so Complete
after Fail (and vice versa) silently changes a terminal status instead of
being rejected. -/
theorem job_transitions_unconditional (j : VegetationJob) (now : ℕ)
    (msg : String) (tb : Option String)
    (res : Option (List (String × String))) :
    (mark_started now j).status = JobStatus.running ∧
    (mark_completed now res j).status = JobStatus.completed ∧
    (mark_failed now msg tb j).status = JobStatus.failed := by
  refine ⟨rfl, ?_, ?_⟩
  · cases res <;> rfl
  · cases tb <;> rfl

/-- C8 counterexample: a job-creation request whose bounds are malformed
is not rejected — `calculate_area_hectares` computes 0.0 hectares for it
and the handler creates the job (there is no `GeometryError` anywhere in
the code). -/
theorem malformed_geometry_counterexample :
    calculate_area_hectares gZero (some (Bounds.malformed "not-a-polygon")) = 0 ∧
    (create_job exLimits gZero "tenantA" "calculate_index" "2026-10-12" 3600 0
        (some (Bounds.malformed "not-a-polygon")) none emptyRedis).1
      = JobOutcome.created := by
  refine ⟨rfl, ?_⟩
  have hfreq : (check_frequency_limit exLimits "tenantA" "calculate_index"
      "2026-10-12" 3600 emptyRedis).1.allowed = true := by decide
  have hvol : (check_volume_limit exLimits gZero 0
      (some (Bounds.malformed "not-a-polygon")) none).1 = true := by
    norm_num [check_volume_limit, calculate_area_hectares, exLimits]
  rcases hF : check_frequency_limit exLimits "tenantA" "calculate_index"
      "2026-10-12" 3600 emptyRedis with ⟨fr, st1⟩
  rw [hF] at hfreq
  rcases hV : check_volume_limit exLimits gZero 0
      (some (Bounds.malformed "not-a-polygon")) none with ⟨v, ha⟩
  rw [hV] at hvol
  simp only [create_job, check_all_limits, hF, hV]
  simp_all

/-- C8 corrected: a malformed input polygon is never rejected and no
`GeometryError` exists — `calculate_area_hectares` silently computes 0.0
hectares for it, and whenever the frequency check admits the request, the
month's usage is within the monthly cap and the daily cap is
non-negative, the handler goes on to create the job record. -/
theorem malformed_geometry_job_created (L : Limits) (gA : Bounds → ℚ)
    (tenant_id job_type today raw : String) (nowSec : ℕ) (current_ha : ℚ)
    (st : RedisState)
    (hf : (check_frequency_limit L tenant_id job_type today nowSec st).1.allowed = true)
    (hm : current_ha ≤ L.monthly_ha_limit)
    (hd : 0 ≤ L.daily_ha_limit) :
    calculate_area_hectares gA (some (Bounds.malformed raw)) = 0 ∧
    (create_job L gA tenant_id job_type today nowSec current_ha
        (some (Bounds.malformed raw)) none st).1 = JobOutcome.created := by
  refine ⟨rfl, ?_⟩
  have hvol : (check_volume_limit L gA current_ha
      (some (Bounds.malformed raw)) none).1 = true := by
    simp only [check_volume_limit, calculate_area_hectares, Option.getD_none, add_zero]
    rw [if_neg (not_lt.mpr hm), if_neg (not_lt.mpr hd)]
  rcases hF : check_frequency_limit L tenant_id job_type today nowSec st with ⟨fr, st1⟩
  rw [hF] at hf
  rcases hV : check_volume_limit L gA current_ha
      (some (Bounds.malformed raw)) none with ⟨v, ha⟩
  rw [hV] at hvol
  simp only [create_job, check_all_limits, hF, hV]
  simp_all

/-- C8 witness: a concrete malformed polygon, a tenant with 1 of 10
monthly hectares used and an empty counter — the job is created. -/
theorem malformed_geometry_job_created_witness :
    calculate_area_hectares gZero (some (Bounds.malformed "oops")) = 0 ∧
    (create_job exLimits gZero "tenantB" "calculate_index" "2026-10-12" 60 1
        (some (Bounds.malformed "oops")) none emptyRedis).1
      = JobOutcome.created := by
  exact malformed_geometry_job_created exLimits gZero "tenantB"
    "calculate_index" "2026-10-12" "oops" 60 1 emptyRedis (by decide)
    (by norm_num [exLimits]) (by norm_num [exLimits])

theorem listStartsWith_iff (l : List Char) :
    ∀ s, listStartsWith l s = true ↔ ∃ r, s = l ++ r := by
  induction l with
  | nil =>
    intro s
    simp [listStartsWith]
  | cons a as ih =>
    intro s
    cases s with
    | nil => simp [listStartsWith]
    | cons b bs =>
      simp only [listStartsWith, Bool.and_eq_true, beq_iff_eq, ih,
        List.cons_append, List.cons.injEq]
      constructor
      · rintro ⟨hab, r, hr⟩
        exact ⟨r, hab.symm, hr⟩
      · rintro ⟨r, hba, hr⟩
        exact ⟨hba.symm, r, hr⟩

theorem tileKey_matches_pattern (z x y : ℤ) (sid idx : String) :
    matchesScenePattern sid (tileCacheKey z x y sid idx) = true := by
  simp only [matchesScenePattern, tileCacheKey, strStartsWith]
  rw [listStartsWith_iff]
  refine ⟨(idx ++ ":" ++ toString z ++ ":" ++ toString x ++ ":" ++ toString y).data, ?_⟩
  simp [String.data_append, List.append_assoc]

/-- C9 counterexample: with a tile cached for scene `SCN` and another
cached for the distinct scene `SCN:EXT`, invalidating `SCN` also deletes
the `SCN:EXT` tile, because the Redis pattern `vegetation:tile:SCN:*`
matches that key too — entries of another scene id are not all left
unchanged. -/
theorem invalidate_scene_counterexample :
    get_tile tileStoreEx 1 2 3 "SCN:EXT" "NDVI" = some "png-b" ∧
    get_tile (invalidate_scene tileStoreEx "SCN").2 1 2 3 "SCN:EXT" "NDVI"
      = none := by
  decide

/-- C9 corrected: `invalidate_scene` deletes exactly the entries whose
key starts with `vegetation:tile:{scene_id}:` — afterwards a `get_tile`
for any zoom/x/y/index of the invalidated scene misses, every entry
without that key prefix survives unchanged, and every surviving entry is
an original entry without the prefix.  An entry of a *different* scene id
is deleted too when its key carries the prefix (e.g. scene `SCN:EXT`
under an invalidation of `SCN`), so "all other scenes untouched" holds
only for scene ids that do not extend the invalidated id past a colon. -/
theorem invalidate_scene_prefix_semantics (st : TileStore) (sid : String)
    (z x y : ℤ) (idx : String) :
    get_tile (invalidate_scene st sid).2 z x y sid idx = none ∧
    (∀ e ∈ st.entries, matchesScenePattern sid e.key = false →
      e ∈ (invalidate_scene st sid).2.entries) ∧
    (∀ e ∈ (invalidate_scene st sid).2.entries,
      e ∈ st.entries ∧ matchesScenePattern sid e.key = false) := by
  refine ⟨?_, ?_, ?_⟩
  · simp only [get_tile, invalidate_scene, Option.map_eq_none']
    rw [List.find?_eq_none]
    intro e he
    have hmem := List.mem_filter.mp he
    intro hbeq
    have hkey : e.key = tileCacheKey z x y sid idx := by
      exact beq_iff_eq.mp hbeq
    have := hmem.2
    rw [hkey, tileKey_matches_pattern] at this
    simp at this
  · intro e he hm
    exact List.mem_filter.mpr ⟨he, by simp [hm]⟩
  · intro e he
    have hmem := List.mem_filter.mp he
    refine ⟨hmem.1, ?_⟩
    have := hmem.2
    simpa using this

theorem countP_map_of_true {α β : Type} (f : α → β) (p : β → Bool)
    (h : ∀ x, p (f x) = true) (l : List α) : (l.map f).countP p = l.length := by
  induction l with
  | nil => rfl
  | cons a as ih => simp [List.countP_cons, h, ih]

theorem countP_map_of_false {α β : Type} (f : α → β) (p : β → Bool)
    (h : ∀ x, p (f x) = false) (l : List α) : (l.map f).countP p = 0 := by
  induction l with
  | nil => rfl
  | cons a as ih => simp [List.countP_cons, h, ih]

theorem assocFind_map_self (f : String → String) (b : String) :
    ∀ (bands : List String), b ∈ bands →
      (bands.map (fun x => (x, f x))).find? (fun p => p.1 == b) = some (b, f b) := by
  intro bands
  induction bands with
  | nil => intro h; cases h
  | cons a as ih =>
    intro hmem
    by_cases hab : a = b
    · subst hab
      simp [List.find?]
    · have hb2 : b ∈ as := by
        rcases List.mem_cons.mp hmem with h | h
        · exact absurd h.symm hab
        · exact h
      simp only [List.map_cons, List.find?]
      have : ((a, f a).1 == b) = false := by simp [hab]
      rw [this]
      exact ih hb2

theorem globalBandPath_ne_empty (sid b : String) :
    (globalBandPath sid b == "") = false := by
  apply beq_eq_false_iff_ne.mpr
  intro h
  have h2 : (globalBandPath sid b).data = [] := by rw [h]
  rw [globalBandPath] at h2
  simp only [String.data_append, List.append_eq_nil] at h2
  exact absurd h2.1.1.1.1 (by decide)

theorem updateEntry_of_find_none (sid : String)
    (f : GlobalSceneCache → GlobalSceneCache) :
    ∀ db : List GlobalSceneCache,
      db.find? (fun e => e.scene_id == sid) = none → updateEntry db sid f = db := by
  intro db
  induction db with
  | nil => intro _; rfl
  | cons e es ih =>
    intro h
    rw [List.find?] at h
    cases hp : (e.scene_id == sid) with
    | true => rw [hp] at h; cases h
    | false =>
      rw [hp] at h
      simp only [updateEntry, List.map_cons]
      rw [if_neg (by simp [hp])]
      have := ih h
      simp only [updateEntry] at this
      rw [this]

theorem updateEntry_comp (db : List GlobalSceneCache) (sid : String)
    (f g : GlobalSceneCache → GlobalSceneCache)
    (hf : ∀ e, (f e).scene_id = e.scene_id) :
    updateEntry (updateEntry db sid f) sid g
      = updateEntry db sid (fun e => g (f e)) := by
  simp only [updateEntry, List.map_map]
  apply List.map_congr_left
  intro e _
  simp only [Function.comp]
  by_cases h : (e.scene_id == sid) = true
  · rw [if_pos h]
    have h2 : ((f e).scene_id == sid) = true := by rw [hf e]; exact h
    rw [if_pos h2, if_pos h]
  · rw [if_neg h, if_neg h, if_neg h]

theorem lookupValid_none (db : List GlobalSceneCache) (sid : String)
    (h : lookupAnyEntry db sid = none) : lookupValidEntry db sid = none := by
  rw [lookupValidEntry, List.find?_eq_none]
  intro e he hcon
  rw [Bool.and_eq_true] at hcon
  exact List.find?_eq_none.mp h e he hcon.1

theorem blobExists_append (l₁ l₂ : List (String × String)) (bu pa : String) :
    blobExists (l₁ ++ l₂) bu pa
      = (blobExists l₁ bu pa || blobExists l₂ bu pa) := by
  simp [blobExists, List.any_append]

theorem blobExists_map_self (bands : List String) (bu : String)
    (g : String → String) (b : String) (hb : b ∈ bands) :
    blobExists (bands.map (fun x => (bu, g x))) bu (g b) = true := by
  simp only [blobExists]
  exact List.any_eq_true.mpr ⟨(bu, g b), List.mem_map_of_mem _ hb, by simp⟩

/-- C1: when the lookup finds a nominally valid cache entry for the scene
but band verification fails (a listed band's path is missing, empty, or
its blob does not exist in the global bucket), the task flips the entry's
`is_valid` to false (the `markedInvalid` event), treats the lookup as a
miss — every required band is re-downloaded from the upstream provider,
re-uploaded to the global bucket, and the entry is re-marked valid with
the fresh band map — and every tenant copy is sourced from the freshly
uploaded `scenes/{scene}/{band}.tif` global paths (each copy event
follows the corresponding upload in the trace), never from the
partially-populated entry. -/
theorem corrupted_hit_invalidates_and_redownloads
    (cfg : AcqConfig) (st : AcqState) (entry : GlobalSceneCache)
    (hb : cfg.required_bands ≠ [])
    (hfind : lookupValidEntry st.cacheDb cfg.scene_id = some entry)
    (hver : verifyBands entry st.blobs cfg.global_bucket cfg.required_bands = false) :
    download_sentinel2_scene cfg st =
      some
        ({ storage_band_paths := cfg.required_bands.map
             (fun b => (b, tenantBandPath cfg.storage_path cfg.scene_id b)),
           events := AcqEvent.markedInvalid cfg.scene_id ::
             (cfg.required_bands.map (fun b => AcqEvent.upstreamDownload cfg.scene_id b) ++
              cfg.required_bands.map (fun b => AcqEvent.globalUpload b (globalBandPath cfg.scene_id b)) ++
              cfg.required_bands.map (fun b => AcqEvent.tenantCopy b (globalBandPath cfg.scene_id b))) },
         { cacheDb := updateEntry st.cacheDb cfg.scene_id (fun e =>
             { e with is_valid := true,
                      bands := cfg.required_bands.map
                        (fun b => (b, globalBandPath cfg.scene_id b)),
                      storage_path := "scenes/" ++ cfg.scene_id ++ "/",
                      storage_bucket := cfg.global_bucket }),
           blobs := cfg.required_bands.map
               (fun b => (cfg.tenant_bucket, tenantBandPath cfg.storage_path cfg.scene_id b)) ++
             (cfg.required_bands.map
               (fun b => (cfg.global_bucket, globalBandPath cfg.scene_id b)) ++ st.blobs) }) ∧
    countUpstream (AcqEvent.markedInvalid cfg.scene_id ::
        (cfg.required_bands.map (fun b => AcqEvent.upstreamDownload cfg.scene_id b) ++
         cfg.required_bands.map (fun b => AcqEvent.globalUpload b (globalBandPath cfg.scene_id b)) ++
         cfg.required_bands.map (fun b => AcqEvent.tenantCopy b (globalBandPath cfg.scene_id b))))
      = cfg.required_bands.length := by
  have hsid : entry.scene_id = cfg.scene_id := by
    have hp := List.find?_some hfind
    rw [Bool.and_eq_true] at hp
    exact beq_iff_eq.mp hp.1
  have hmem : entry ∈ st.cacheDb := List.mem_of_find?_eq_some hfind
  have hbe : cfg.required_bands.isEmpty = false := by simp [hb]
  have hany : (updateEntry st.cacheDb cfg.scene_id
      (fun e => { e with is_valid := false })).any
      (fun e => e.scene_id == cfg.scene_id) = true := by
    apply List.any_eq_true.mpr
    refine ⟨(fun e => if e.scene_id == cfg.scene_id then
        { e with is_valid := false } else e) entry, ?_, ?_⟩
    · exact List.mem_map_of_mem _ hmem
    · simp [hsid]
  constructor
  · simp only [download_sentinel2_scene, hfind]
    rw [if_neg (by simp [hver])]
    simp only [missPath]
    rw [if_neg (by simp [hbe]), if_pos hany]
    simp only [Option.map_some']
    have hcomp := updateEntry_comp st.cacheDb cfg.scene_id (fun e => { e with is_valid := false }) (fun e => { e with is_valid := true, bands := cfg.required_bands.map (fun b => (b, globalBandPath cfg.scene_id b)), storage_path := "scenes/" ++ cfg.scene_id ++ "/", storage_bucket := cfg.global_bucket }) (fun e => rfl)
    rw [hcomp]
  · simp only [countUpstream, List.countP_cons, List.countP_append]
    rw [countP_map_of_true (fun b => AcqEvent.upstreamDownload cfg.scene_id b)
          isUpstreamDownload (fun x => rfl),
        countP_map_of_false (fun b => AcqEvent.globalUpload b (globalBandPath cfg.scene_id b))
          isUpstreamDownload (fun x => rfl),
        countP_map_of_false (fun b => AcqEvent.tenantCopy b (globalBandPath cfg.scene_id b))
          isUpstreamDownload (fun x => rfl)]
    simp [isUpstreamDownload]

/-- C1 witness: scene `S` has a nominally valid entry whose only band
blob is missing; the run marks it invalid, re-downloads the band
upstream, re-uploads it, re-validates the entry (reuse counter kept) and
copies the fresh blob to the tenant bucket. -/
theorem corrupted_hit_invalidates_and_redownloads_witness :
    download_sentinel2_scene exCfg stBad =
      some
        ({ storage_band_paths := [("B02", "veg/scenes/S/B02.tif")],
           events := [AcqEvent.markedInvalid "S",
                      AcqEvent.upstreamDownload "S" "B02",
                      AcqEvent.globalUpload "B02" "scenes/S/B02.tif",
                      AcqEvent.tenantCopy "B02" "scenes/S/B02.tif"] },
         { cacheDb := [{ scene_id := "S",
                         bands := [("B02", "scenes/S/B02.tif")],
                         storage_path := "scenes/S/",
                         storage_bucket := "veg-global",
                         download_count := 4, last_accessed_at := none,
                         is_valid := true }],
           blobs := [("veg-tenant-a", "veg/scenes/S/B02.tif"),
                     ("veg-global", "scenes/S/B02.tif")] }) := by
  have h := corrupted_hit_invalidates_and_redownloads exCfg stBad entryBad
    (by decide) (by decide) (by decide)
  rw [h.1]
  decide

/-- C4: starting from a state with no cache entry for the scene, tenant
A's request is a miss — every required band is downloaded upstream
exactly once, uploaded to the global bucket, and the entry is created
with reuse counter (`download_count`) 0; tenant B's subsequent request is
a fully-valid hit — every required band is copied from the global bucket
to B's bucket, the reuse counter is incremented to 1, `last_accessed_at`
is set to B's clock, and no upstream call occurs (B's trace has zero
upstream downloads). -/
theorem miss_then_hit_single_upstream_download
    (sid gb tbA spA tbB spB : String) (bands : List String) (nA nB : ℕ)
    (st : AcqState)
    (hb : bands ≠ [])
    (hnone : lookupAnyEntry st.cacheDb sid = none) :
    download_sentinel2_scene
        { scene_id := sid, required_bands := bands, global_bucket := gb,
          tenant_bucket := tbA, storage_path := spA, now := nA } st =
      some
        ({ storage_band_paths := bands.map (fun b => (b, tenantBandPath spA sid b)),
           events := bands.map (fun b => AcqEvent.upstreamDownload sid b) ++
             bands.map (fun b => AcqEvent.globalUpload b (globalBandPath sid b)) ++
             bands.map (fun b => AcqEvent.tenantCopy b (globalBandPath sid b)) },
         { cacheDb := st.cacheDb ++ [freshSceneEntry sid gb bands],
           blobs := missBlobs sid gb tbA spA bands st.blobs }) ∧
    download_sentinel2_scene
        { scene_id := sid, required_bands := bands, global_bucket := gb,
          tenant_bucket := tbB, storage_path := spB, now := nB }
        { cacheDb := st.cacheDb ++ [freshSceneEntry sid gb bands],
          blobs := missBlobs sid gb tbA spA bands st.blobs } =
      some
        ({ storage_band_paths := bands.map (fun b => (b, tenantBandPath spB sid b)),
           events := bands.map (fun b => AcqEvent.tenantCopy b (globalBandPath sid b)) ++
             [AcqEvent.reuseIncrement sid] },
         { cacheDb := st.cacheDb ++
             [{ freshSceneEntry sid gb bands with
                download_count := 1, last_accessed_at := some nB }],
           blobs := bands.map (fun b => (tbB, tenantBandPath spB sid b)) ++
             missBlobs sid gb tbA spA bands st.blobs }) ∧
    countUpstream (bands.map (fun b => AcqEvent.upstreamDownload sid b) ++
        bands.map (fun b => AcqEvent.globalUpload b (globalBandPath sid b)) ++
        bands.map (fun b => AcqEvent.tenantCopy b (globalBandPath sid b)))
      = bands.length ∧
    countUpstream (bands.map (fun b => AcqEvent.tenantCopy b (globalBandPath sid b)) ++
        [AcqEvent.reuseIncrement sid]) = 0 := by
  have hvalid_none : lookupValidEntry st.cacheDb sid = none :=
    lookupValid_none st.cacheDb sid hnone
  have hbe : bands.isEmpty = false := by simp [hb]
  have hanyA : st.cacheDb.any (fun e => e.scene_id == sid) = false :=
    List.any_eq_false.mpr (fun e he => List.find?_eq_none.mp hnone e he)
  have hgbp : ∀ b ∈ bands, get_band_path (freshSceneEntry sid gb bands) b
      = some (globalBandPath sid b) := by
    intro b hbm
    simp only [get_band_path, freshSceneEntry]
    rw [assocFind_map_self (fun x => globalBandPath sid x) b bands hbm]
    rfl
  refine ⟨?_, ?_, ?_, ?_⟩
  · simp only [download_sentinel2_scene, hvalid_none, missPath]
    rw [if_neg (by simp [hbe]), if_neg (by simp [hanyA])]
    rfl
  · have hfindB : lookupValidEntry
        (st.cacheDb ++ [freshSceneEntry sid gb bands]) sid
        = some (freshSceneEntry sid gb bands) := by
      rw [lookupValidEntry, List.find?_append]
      have h1 : List.find? (fun e => e.scene_id == sid && e.is_valid) st.cacheDb
          = none := hvalid_none
      rw [h1, Option.none_or]
      simp [List.find?, freshSceneEntry]
    have hverB : verifyBands (freshSceneEntry sid gb bands)
        (missBlobs sid gb tbA spA bands st.blobs) gb bands = true := by
      simp only [verifyBands]
      rw [List.all_eq_true]
      intro b hbm
      rw [hgbp b hbm]
      simp only [globalBandPath_ne_empty, Bool.not_false, Bool.true_and]
      simp only [missBlobs]
      rw [blobExists_append, blobExists_append,
        blobExists_map_self bands gb (fun x => globalBandPath sid x) b hbm]
      simp
    have hevents : bands.map (fun b => AcqEvent.tenantCopy b
        ((get_band_path (freshSceneEntry sid gb bands) b).getD ""))
        = bands.map (fun b => AcqEvent.tenantCopy b (globalBandPath sid b)) :=
      List.map_congr_left (fun b hbm => by simp [hgbp b hbm])
    have hupd : updateEntry (st.cacheDb ++ [freshSceneEntry sid gb bands]) sid
        (increment_download_count nB)
        = st.cacheDb ++ [{ freshSceneEntry sid gb bands with
            download_count := 1, last_accessed_at := some nB }] := by
      simp only [updateEntry, List.map_append]
      congr 1
      · have h5 := updateEntry_of_find_none sid (increment_download_count nB)
          st.cacheDb hnone
        simpa [updateEntry] using h5
      · simp [freshSceneEntry, increment_download_count]
    simp only [download_sentinel2_scene, hfindB]
    rw [if_pos hverB]
    rw [hevents, hupd]
  · simp only [countUpstream, List.countP_append]
    rw [countP_map_of_true (fun b => AcqEvent.upstreamDownload sid b)
          isUpstreamDownload (fun x => rfl),
        countP_map_of_false (fun b => AcqEvent.globalUpload b (globalBandPath sid b))
          isUpstreamDownload (fun x => rfl),
        countP_map_of_false (fun b => AcqEvent.tenantCopy b (globalBandPath sid b))
          isUpstreamDownload (fun x => rfl)]
    omega
  · simp only [countUpstream, List.countP_append]
    rw [countP_map_of_false (fun b => AcqEvent.tenantCopy b (globalBandPath sid b))
          isUpstreamDownload (fun x => rfl)]
    simp [List.countP_cons, isUpstreamDownload]

/-- C4 witness: empty cache, scene `S2A` with two bands; tenant A's run
downloads both bands upstream (2 upstream downloads) and creates the
entry with reuse counter 0; tenant B's run 1 tick later copies both bands
with zero upstream downloads and leaves the counter at 1 with
`last_accessed_at` set. -/
theorem miss_then_hit_single_upstream_download_witness :
    download_sentinel2_scene
        { scene_id := "S2A", required_bands := ["B02", "B04"],
          global_bucket := "veg-global", tenant_bucket := "veg-tenant-a",
          storage_path := "a/", now := 10 } stEmpty =
      some
        ({ storage_band_paths := ["B02", "B04"].map
             (fun b => (b, tenantBandPath "a/" "S2A" b)),
           events := ["B02", "B04"].map (fun b => AcqEvent.upstreamDownload "S2A" b) ++
             ["B02", "B04"].map (fun b => AcqEvent.globalUpload b (globalBandPath "S2A" b)) ++
             ["B02", "B04"].map (fun b => AcqEvent.tenantCopy b (globalBandPath "S2A" b)) },
         { cacheDb := stEmpty.cacheDb ++ [freshSceneEntry "S2A" "veg-global" ["B02", "B04"]],
           blobs := missBlobs "S2A" "veg-global" "veg-tenant-a" "a/" ["B02", "B04"] stEmpty.blobs }) ∧
    download_sentinel2_scene
        { scene_id := "S2A", required_bands := ["B02", "B04"],
          global_bucket := "veg-global", tenant_bucket := "veg-tenant-b",
          storage_path := "b/", now := 11 }
        { cacheDb := stEmpty.cacheDb ++ [freshSceneEntry "S2A" "veg-global" ["B02", "B04"]],
          blobs := missBlobs "S2A" "veg-global" "veg-tenant-a" "a/" ["B02", "B04"] stEmpty.blobs } =
      some
        ({ storage_band_paths := ["B02", "B04"].map
             (fun b => (b, tenantBandPath "b/" "S2A" b)),
           events := ["B02", "B04"].map (fun b => AcqEvent.tenantCopy b (globalBandPath "S2A" b)) ++
             [AcqEvent.reuseIncrement "S2A"] },
         { cacheDb := stEmpty.cacheDb ++
             [{ freshSceneEntry "S2A" "veg-global" ["B02", "B04"] with
                download_count := 1, last_accessed_at := some 11 }],
           blobs := ["B02", "B04"].map (fun b => ("veg-tenant-b", tenantBandPath "b/" "S2A" b)) ++
             missBlobs "S2A" "veg-global" "veg-tenant-a" "a/" ["B02", "B04"] stEmpty.blobs }) ∧
    countUpstream (["B02", "B04"].map (fun b => AcqEvent.upstreamDownload "S2A" b) ++
        ["B02", "B04"].map (fun b => AcqEvent.globalUpload b (globalBandPath "S2A" b)) ++
        ["B02", "B04"].map (fun b => AcqEvent.tenantCopy b (globalBandPath "S2A" b)))
      = (["B02", "B04"] : List String).length ∧
    countUpstream (["B02", "B04"].map (fun b => AcqEvent.tenantCopy b (globalBandPath "S2A" b)) ++
        [AcqEvent.reuseIncrement "S2A"]) = 0 :=
  miss_then_hit_single_upstream_download "S2A" "veg-global" "veg-tenant-a" "a/"
    "veg-tenant-b" "b/" ["B02", "B04"] 10 11 stEmpty (by decide) rfl
